import Mathlib

/-!
Verification development for the grimoirelab-perceval fork containing two
backends: perceval/backends/core/githubreleases.py (GitHubRelease,
GitHubReleaseClient) and perceval/backends/core/liferay.py (Liferay,
LiferayClient).  Each definition below is a shallow embedding of a function
of those files; the file and line of the source are named in the doc
comments.  External collaborators that are not part of this repository
(json.loads, str_to_datetime, datetime_to_utc, the transport, the remote
servers) are modelled as explicit parameters or, where the specification
fixes their meaning, as definitions marked "Modelled from the spec".
-/

/-- JSON values, the result of json.loads on a raw response body.  Python
dicts become association lists, Python lists become Lean lists. -/
inductive Json where
  | null : Json
  | bool (b : Bool) : Json
  | num (n : Int) : Json
  | str (s : String) : Json
  | arr (items : List Json) : Json
  | obj (fields : List (String × Json)) : Json

/-- Subscripting a JSON object with a string key, as Python item access on a
dict parsed by json.loads; none models the KeyError / TypeError raised when
the key is absent or the value is not a dict. -/
def Json.getField : Json → String → Option Json
  | .obj fields, k => fields.lookup k
  | _, _ => none

/-- Iterating over a JSON value with a Python for loop requires a list;
none models the TypeError raised on a non-list value. -/
def Json.asArray : Json → Option (List Json)
  | .arr items => some items
  | _ => none

/-- Modelled from the spec: a timezone-aware datetime, as used by the
grimoirelab toolkit.  The instant is in seconds since the UNIX epoch and
the utcOffset is the timezone offset of the rendering, so two datetimes
with the same instant denote the same moment. -/
structure Datetime where
  instant : Int
  utcOffset : Int
deriving DecidableEq

/-- Modelled from the spec: DEFAULT_DATETIME of perceval/utils.py, the
epoch-zero sentinel (1970-01-01 UTC) used when from_date is unset. -/
def DEFAULT_DATETIME : Datetime := { instant := 0, utcOffset := 0 }

/-- Modelled from the spec: DEFAULT_LAST_DATETIME of perceval/utils.py, the
far-future sentinel (2100-01-01 UTC) used when to_date is unset. -/
def DEFAULT_LAST_DATETIME : Datetime := { instant := 4102444800, utcOffset := 0 }

/-- Modelled from the spec: grimoirelab_toolkit.datetime.datetime_to_utc
normalizes a datetime to UTC, keeping the instant and zeroing the offset. -/
def datetime_to_utc (d : Datetime) : Datetime := { instant := d.instant, utcOffset := 0 }

/-- Modelled from the spec: the ISO-8601 rendering datetime.isoformat, an
injective rendering of the datetime used as a server-side filter value. -/
def Datetime.isoformat (d : Datetime) : String :=
  toString d.instant ++ "@" ++ toString d.utcOffset

/-! ## GitHubRelease (githubreleases.py) -/

/-- Modelled from the spec: GitHubClient.VSTATE_ALL, the value of the state
query parameter (the base class github.py is not part of this repository). -/
def VSTATE_ALL : String := "all"

/-- Modelled from the spec: GitHubClient.VDIRECTION_ASC, the ascending
direction value of the GitHub list API. -/
def VDIRECTION_ASC : String := "asc"

/-- Modelled from the spec: GitHubClient.VSORT_UPDATED, the value that asks
the GitHub list API to sort by the updated timestamp. -/
def VSORT_UPDATED : String := "updated"

/-- The query payload built by GitHubReleaseClient.get_releases
(githubreleases.py lines 240 to 248): state, per_page, direction and sort
are always set; since is set only when from_date is not None. -/
structure GetReleasesPayload where
  state : String
  per_page : Nat
  direction : String
  sort : String
  since : Option String
deriving DecidableEq

/-- GitHubReleaseClient.get_releases, githubreleases.py lines 230 to 251:
the payload of the request sent to the releases endpoint. -/
def GitHubReleaseClient.get_releases_payload (max_items : Nat) (from_date : Option Datetime) :
    GetReleasesPayload :=
  { state := VSTATE_ALL
    per_page := max_items
    direction := VDIRECTION_ASC
    sort := VSORT_UPDATED
    since := from_date.map Datetime.isoformat }

/-- GitHubRelease.parse_releases, githubreleases.py lines 170 to 184:
json.loads the raw page and yield each element of the resulting list.
The loads parameter stands for json.loads. -/
def GitHubRelease.parse_releases (loads : String → Json) (raw_page : String) :
    Option (List Json) :=
  (loads raw_page).asArray

/-- GitHubRelease.fetch_items, githubreleases.py lines 139 to 142: the for
loop over whole_pages, which json.loads each page and yields every release
of every page.  none models an exception raised while consuming the
stream; the model returns the whole yielded sequence at once. -/
def GitHubRelease.fetch_items_pages (loads : String → Json) : List String → Option (List Json)
  | [] => some []
  | whole_page :: rest =>
    match (loads whole_page).asArray with
    | none => none
    | some releases =>
      match GitHubRelease.fetch_items_pages loads rest with
      | none => none
      | some more => some (releases ++ more)

/-- GitHubRelease.fetch_items, githubreleases.py lines 127 to 142: kwargs
carries both from_date and to_date (both were put there by fetch), but the
body reads only kwargs of from_date and passes it to
client.get_releases; to_date is never consulted.  The get_releases
parameter stands for the client page stream as a function of from_date. -/
def GitHubRelease.fetch_items (loads : String → Json) (get_releases : Datetime → List String)
    (from_date : Datetime) (to_date : Datetime) : Option (List Json) :=
  GitHubRelease.fetch_items_pages loads (get_releases from_date)

/-- GitHubRelease.fetch, githubreleases.py lines 111 to 117: substitute the
defaults for unset dates and normalize both bounds to UTC.  Python
truthiness of a datetime is truth exactly when it is not None, so the
Option models the if not from_date tests. -/
def GitHubRelease.fetch_window (from_date to_date : Option Datetime) : Datetime × Datetime :=
  (datetime_to_utc (match from_date with | none => DEFAULT_DATETIME | some d => d),
   datetime_to_utc (match to_date with | none => DEFAULT_LAST_DATETIME | some d => d))

/-- GitHubRelease.fetch, githubreleases.py lines 97 to 125: normalize the
window, then delegate to fetch_items through the base Backend.fetch.
Modelled from the spec: the base Backend.fetch (not part of this
repository) forwards the kwargs to fetch_items unchanged and applies no
date filtering of its own. -/
def GitHubRelease.fetch (loads : String → Json) (get_releases : Datetime → List String)
    (from_date to_date : Option Datetime) : Option (List Json) :=
  GitHubRelease.fetch_items loads get_releases
    (GitHubRelease.fetch_window from_date to_date).1
    (GitHubRelease.fetch_window from_date to_date).2

/-- GitHubRelease.metadata_updated_on, githubreleases.py lines 144 to 159:
reads the created_at field of the item, parses it with str_to_datetime and
takes the timestamp.  The str_to_ts parameter composes those two external
calls; none models the error raised when the field is absent or not a
string. -/
def GitHubRelease.metadata_updated_on (str_to_ts : String → Int) (item : Json) : Option Int :=
  match item.getField "created_at" with
  | some (Json.str s) => some (str_to_ts s)
  | _ => none

/-! ## Liferay (liferay.py) -/

/-- MAX_ITEMS, liferay.py line 39: the default page size. -/
def MAX_ITEMS : Nat := 20

/-- The argument list of the messageBoardThreads field of
POSTS_QUERY_TEMPLATE, liferay.py lines 41 to 50, after the template
substitution query_template percent (from_date.isoformat(), page,
max_items, site_id) done by LiferayClient.fetch_items: the filter is
dateCreated gt followed by the first substituted value, flatten is true,
page, pageSize and siteKey are the remaining substituted values, and the
sort argument is the literal dateCreated:desc. -/
structure PostsQueryArgs where
  filter : String
  flatten : Bool
  page : Nat
  pageSize : Nat
  siteKey : String
  sort : String
deriving DecidableEq

/-- The query built for a given page by LiferayClient.fetch_items,
liferay.py lines 346 and 361, with the POSTS_QUERY_TEMPLATE that
get_questions passes in. -/
def LiferayClient.queryFor (from_date : Datetime) (max_items : Nat) (site_id : String)
    (page : Nat) : PostsQueryArgs :=
  { filter := "dateCreated gt " ++ Datetime.isoformat from_date
    flatten := true
    page := page
    pageSize := max_items
    siteKey := site_id
    sort := "dateCreated:desc" }

/-- The pagination metadata of one GraphQL response, the fields read by
LiferayClient.fetch_items from data of data of entries: pageSize, lastPage
and totalCount (liferay.py lines 351, 352, 366, 368). -/
structure LiferayEntries where
  pageSize : Nat
  lastPage : Nat
  totalCount : Nat
deriving DecidableEq

/-- One HTTP response as LiferayClient.fetch_items sees it: text is the
raw body (response.text, the value yielded), and entries stands for
response.json() at data of entries. -/
structure LiferayResponse where
  text : String
  entries : LiferayEntries
deriving DecidableEq

/-- The while has_next loop of LiferayClient.fetch_items, liferay.py lines
356 to 371.  Entering an iteration with the current page number and the
raw text of the page fetched last, the body yields that text, increments
page, requests the next page, and exits after this iteration when the new
page number is at least the lastPage the new response reports (page >=
lastPage); otherwise it iterates with the new response.  The fuel bounds
the number of iterations; none models a run that does not finish within
the fuel.  The result pairs the yielded raw pages with the queries sent. -/
def LiferayClient.fetchItemsLoop (server : PostsQueryArgs → LiferayResponse)
    (mk : Nat → PostsQueryArgs) :
    Nat → Nat → String → Option (List String × List PostsQueryArgs)
  | 0, _, _ => none
  | fuel + 1, page, items =>
    if (server (mk (page + 1))).entries.lastPage ≤ page + 1 then
      some ([items], [mk (page + 1)])
    else
      match LiferayClient.fetchItemsLoop server mk fuel (page + 1) (server (mk (page + 1))).text with
      | none => none
      | some pr => some (items :: pr.1, mk (page + 1) :: pr.2)

/-- LiferayClient.fetch_items, liferay.py lines 337 to 371: request page 1,
read the pagination metadata, then run the while loop starting from page 1
with the text of the first response in hand.  The server parameter stands
for the POST transport: the response for a given substituted query. -/
def LiferayClient.fetch_items (server : PostsQueryArgs → LiferayResponse)
    (from_date : Datetime) (max_items : Nat) (site_id : String) (fuel : Nat) :
    Option (List String × List PostsQueryArgs) :=
  match LiferayClient.fetchItemsLoop server (LiferayClient.queryFor from_date max_items site_id)
      fuel 1 (server (LiferayClient.queryFor from_date max_items site_id 1)).text with
  | none => none
  | some pr => some (pr.1, LiferayClient.queryFor from_date max_items site_id 1 :: pr.2)

/-- Liferay.parse_questions, liferay.py lines 269 to 283: json.loads the
raw page, index data, entries, items, and yield each element. -/
def Liferay.parse_questions (loads : String → Json) (raw_page : String) : Option (List Json) :=
  match (loads raw_page).getField "data" with
  | none => none
  | some d =>
    match d.getField "entries" with
    | none => none
    | some e =>
      match e.getField "items" with
      | none => none
      | some i => i.asArray

/-- Liferay.fetch_items, liferay.py lines 215 to 218: the for loop over
whole_pages, parsing each page with parse_questions and yielding every
question of every page. -/
def Liferay.fetch_items_pages (loads : String → Json) : List String → Option (List Json)
  | [] => some []
  | whole_page :: rest =>
    match Liferay.parse_questions loads whole_page with
    | none => none
    | some questions =>
      match Liferay.fetch_items_pages loads rest with
      | none => none
      | some more => some (questions ++ more)

/-- Liferay.fetch, liferay.py lines 190 to 193: the from_date actually
used, after the default substitution and the UTC normalization. -/
def Liferay.from_date_used (from_date : Option Datetime) : Datetime :=
  datetime_to_utc (match from_date with | none => DEFAULT_DATETIME | some d => d)

/-- Liferay.metadata_updated_on, liferay.py lines 242 to 257: reads the
dateModified field of the item, parses it with str_to_datetime and takes
the timestamp. -/
def Liferay.metadata_updated_on (str_to_ts : String → Int) (item : Json) : Option Int :=
  match item.getField "dateModified" with
  | some (Json.str s) => some (str_to_ts s)
  | _ => none

/-- The data dict posted to the token endpoint by
LiferayClient._extract_access_token, liferay.py lines 325 to 331. -/
structure TokenRequestData where
  client_id : Option String
  client_secret : Option String
  grant_type : String
  refresh_token : Option String
  redirect_uri : String
deriving DecidableEq

/-- LiferayClient._extract_access_token, liferay.py lines 322 to 335: post
the refresh-token grant to the token endpoint, read access_token from the
response JSON, and install the bearer Authorization header on the session.
The tokenServer parameter stands for requests.post composed with
json.loads of the response text.  The result pairs the token requests
issued with the Authorization header value installed (none standing for
the error raised when the response carries no string access_token, in
which case no header is installed either). -/
def LiferayClient.extract_access_token (tokenServer : TokenRequestData → Json)
    (url : String) (client_id secret_id refresh_token : Option String) :
    List TokenRequestData × Option String :=
  match (tokenServer
      { client_id := client_id
        client_secret := secret_id
        grant_type := "refresh_token"
        refresh_token := refresh_token
        redirect_uri := url }).getField "access_token" with
  | some (Json.str tok) =>
    ([{ client_id := client_id
        client_secret := secret_id
        grant_type := "refresh_token"
        refresh_token := refresh_token
        redirect_uri := url }], some ("Bearer " ++ tok))
  | _ =>
    ([{ client_id := client_id
        client_secret := secret_id
        grant_type := "refresh_token"
        refresh_token := refresh_token
        redirect_uri := url }], none)

/-- The token-extraction part of LiferayClient.__init__, liferay.py lines
318 to 320: when from_archive is false, _extract_access_token runs once at
construction; when from_archive is true it is skipped, no token request is
made and no Authorization header is installed. -/
def LiferayClient.init (tokenServer : TokenRequestData → Json) (url : String)
    (client_id secret_id refresh_token : Option String) (from_archive : Bool) :
    List TokenRequestData × Option String :=
  if from_archive then ([], none)
  else LiferayClient.extract_access_token tokenServer url client_id secret_id refresh_token

/-! ## A well-behaved Liferay server, for the pagination claims -/

/-- Ceiling division rendered as in the claims: the number of pages needed
for total items at pageSize items per page, floored at one page, which is
the lastPage a Liferay server reports. -/
def lastPageFor (total pageSize : Nat) : Nat :=
  max 1 ((total + pageSize - 1) / pageSize)

/-- Number of items on a given page when total items are laid out pageSize
per page. -/
def pageItemCount (total pageSize page : Nat) : Nat :=
  min pageSize (total - (page - 1) * pageSize)

/-- A server holding total items at pageSize per page, reporting the
pagination metadata consistently on every page and serving body p as the
raw text of page p.  It ignores every query field except the page
number. -/
def honestLiferayServer (total pageSize : Nat) (body : Nat → String) :
    PostsQueryArgs → LiferayResponse :=
  fun q =>
    { text := body q.page
      entries :=
        { pageSize := pageItemCount total pageSize q.page
          lastPage := lastPageFor total pageSize
          totalCount := total } }

/-! ## Concrete fixtures for the counterexamples and bug witnesses -/

/-- A single release item whose created_at timestamp is far in the
future (the 2100-01-01 instant). -/
def sampleRelease : Json := Json.obj [("created_at", Json.str "2100-01-01T00:00:00+00:00")]

/-- A json.loads decoding exactly one raw page body, PAGE1, to a
one-element release list, as the real json.loads would on that body. -/
def sampleLoads : String → Json :=
  fun s => if s = "PAGE1" then Json.arr [sampleRelease] else Json.null

/-- A client page stream returning the single page PAGE1 for every
from_date. -/
def sampleGetReleases : Datetime → List String := fun _ => ["PAGE1"]

/-- A str_to_datetime timestamp function for the fixture: the sample
created_at value renders to the 2100-01-01 UNIX timestamp. -/
def sampleStrToTs : String → Int :=
  fun s => if s = "2100-01-01T00:00:00+00:00" then 4102444800 else 0

/-! ## Helper lemmas -/

/-- Closed form of the while loop against a server that reports the same
lastPage L on every page: entering at a given page with a carried raw
text, the loop yields the carried text plus the texts of pages page plus
one up to max (page plus one) L minus one, and sends the queries for
pages page plus one up to max (page plus one) L.  The fuel only needs to
cover the remaining pages. -/
theorem LiferayClient.fetchItemsLoop_const (server : PostsQueryArgs → LiferayResponse)
    (mk : Nat → PostsQueryArgs) (L : Nat)
    (hL : ∀ q, (server q).entries.lastPage = L) :
    ∀ fuel page items, 0 < fuel → L ≤ page + fuel →
      LiferayClient.fetchItemsLoop server mk fuel page items =
        some (items :: (List.range' (page + 1) (max (page + 1) L - (page + 1))).map
                (fun p => (server (mk p)).text),
              (List.range' (page + 1) (max (page + 1) L - page)).map mk) := by
  intro fuel
  induction fuel with
  | zero => intro page items h0 _; exact absurd h0 (by simp)
  | succ f ih =>
    intro page items _ hle
    by_cases hstop : L ≤ page + 1
    · have e1 : max (page + 1) L - (page + 1) = 0 := by
        rw [Nat.max_eq_left hstop]; omega
      have e2 : max (page + 1) L - page = 1 := by
        rw [Nat.max_eq_left hstop]; omega
      rw [LiferayClient.fetchItemsLoop, if_pos (by rw [hL]; exact hstop), e1, e2]
      simp
    · push_neg at hstop
      have hf : 0 < f := by omega
      have hle2 : L ≤ (page + 1) + f := by omega
      have hrec := ih (page + 1) (server (mk (page + 1))).text hf hle2
      rw [LiferayClient.fetchItemsLoop, if_neg (by rw [hL]; omega), hrec]
      rw [Nat.max_eq_right (show page + 1 + 1 ≤ L by omega),
          Nat.max_eq_right (show page + 1 ≤ L by omega)]
      rw [show L - page = (L - (page + 1)) + 1 from by omega,
          show L - (page + 1) = (L - (page + 1 + 1)) + 1 from by omega]
      simp [List.range'_succ]

/-- Closed form of LiferayClient.fetch_items against a constant-lastPage
server: the queries sent are for pages 1 up to max 2 L, and the yielded
raw pages are those of pages 1 up to max 2 L minus one. -/
theorem LiferayClient.fetch_items_const (server : PostsQueryArgs → LiferayResponse) (L : Nat)
    (hL : ∀ q, (server q).entries.lastPage = L)
    (from_date : Datetime) (max_items : Nat) (site_id : String) (fuel : Nat)
    (h0 : 0 < fuel) (hle : L ≤ 1 + fuel) :
    LiferayClient.fetch_items server from_date max_items site_id fuel =
      some ((List.range' 1 (max 2 L - 1)).map
              (fun p => (server (LiferayClient.queryFor from_date max_items site_id p)).text),
            (List.range' 1 (max 2 L)).map (LiferayClient.queryFor from_date max_items site_id)) := by
  have hreq : List.range' 1 (max 2 L) = 1 :: List.range' 2 (max 2 L - 1) := by
    conv_lhs => rw [show max 2 L = (max 2 L - 1) + 1 from by omega]
    rw [List.range'_succ]
  have hyld : List.range' 1 (max 2 L - 1) = 1 :: List.range' 2 (max 2 L - 2) := by
    conv_lhs => rw [show max 2 L - 1 = (max 2 L - 2) + 1 from by omega]
    rw [List.range'_succ]
  rw [LiferayClient.fetch_items,
      LiferayClient.fetchItemsLoop_const server _ L hL fuel 1 _ h0 hle,
      hreq, hyld]
  have h11 : (1 : Nat) + 1 = 2 := rfl
  rw [h11]
  simp

/-- Every query the while loop sends is built by the query constructor it
was given; the loop sends nothing else. -/
theorem LiferayClient.fetchItemsLoop_requests (server : PostsQueryArgs → LiferayResponse)
    (mk : Nat → PostsQueryArgs) :
    ∀ fuel page items ys reqs,
      LiferayClient.fetchItemsLoop server mk fuel page items = some (ys, reqs) →
      ∀ q ∈ reqs, ∃ p, q = mk p := by
  intro fuel
  induction fuel with
  | zero => intro page items ys reqs h; simp [LiferayClient.fetchItemsLoop] at h
  | succ f ih =>
    intro page items ys reqs h q hq
    rw [LiferayClient.fetchItemsLoop] at h
    split at h
    · simp only [Option.some.injEq, Prod.mk.injEq] at h
      obtain ⟨h1, h2⟩ := h
      subst h2
      rcases List.mem_singleton.mp hq with rfl
      exact ⟨page + 1, rfl⟩
    · split at h
      · exact absurd h (by simp)
      · next pr heq =>
        simp only [Option.some.injEq, Prod.mk.injEq] at h
        obtain ⟨h1, h2⟩ := h
        subst h2
        rcases List.mem_cons.mp hq with rfl | hq2
        · exact ⟨page + 1, rfl⟩
        · exact ih (page + 1) (server (mk (page + 1))).text pr.1 pr.2 (by rw [heq]) q hq2

/-- GitHubRelease.fetch_items agrees with mapping parse_releases over the
raw pages and concatenating in order. -/
theorem github_pages_eq_mapM (loads : String → Json) (pages : List String) :
    GitHubRelease.fetch_items_pages loads pages =
      (pages.mapM (GitHubRelease.parse_releases loads)).map List.flatten := by
  induction pages with
  | nil => rfl
  | cons p rest ih =>
    simp only [GitHubRelease.fetch_items_pages, List.mapM_cons]
    cases h : (loads p).asArray with
    | none => simp [GitHubRelease.parse_releases, h]
    | some rel =>
      rw [ih]
      cases hm : rest.mapM (GitHubRelease.parse_releases loads) with
      | none => simp [GitHubRelease.parse_releases, h, hm]
      | some ls => simp [GitHubRelease.parse_releases, h, hm]

/-- Liferay.fetch_items agrees with mapping parse_questions over the raw
pages and concatenating in order. -/
theorem liferay_pages_eq_mapM (loads : String → Json) (pages : List String) :
    Liferay.fetch_items_pages loads pages =
      (pages.mapM (Liferay.parse_questions loads)).map List.flatten := by
  induction pages with
  | nil => rfl
  | cons p rest ih =>
    simp only [Liferay.fetch_items_pages, List.mapM_cons]
    cases h : Liferay.parse_questions loads p with
    | none => simp [h]
    | some qs =>
      rw [ih]
      cases hm : rest.mapM (Liferay.parse_questions loads) with
      | none => simp [h, hm]
      | some ls => simp [h, hm]

/-! ## Claims -/

/-- Claim C1: the claim states that every item yielded by a GitHubRelease
fetch has a timestamp within the window and that the stream stops as soon
as an item exceeds to_date.  The code refutes this: fetch_items never
reads to_date, so its output is independent of to_date, and on a client
returning one release dated 2100-01-01 a fetch with to_date at instant 100
still yields that release although its metadata_updated_on timestamp
exceeds the bound. -/
theorem c1_github_to_date_ignored :
    (∀ (loads : String → Json) (get_releases : Datetime → List String) (fd td td2 : Datetime),
        GitHubRelease.fetch_items loads get_releases fd td =
          GitHubRelease.fetch_items loads get_releases fd td2) ∧
    GitHubRelease.fetch sampleLoads sampleGetReleases
        (some { instant := 0, utcOffset := 0 }) (some { instant := 100, utcOffset := 0 }) =
      some [sampleRelease] ∧
    GitHubRelease.metadata_updated_on sampleStrToTs sampleRelease = some 4102444800 ∧
    (100 : Int) < 4102444800 := by
  exact ⟨fun _ _ _ _ _ => rfl, rfl, rfl, by norm_num⟩

/-- Claim C5: the claim states that an inverted window (to_date strictly
before from_date) raises no validation error and yields zero items.  The
code raises no error, but it does not yield zero items: with from_date at
instant 100 and to_date at instant 50 the fetch still yields everything
the client returns, because to_date is never applied. -/
theorem c5_inverted_window_still_yields :
    GitHubRelease.fetch sampleLoads sampleGetReleases
        (some { instant := 100, utcOffset := 0 }) (some { instant := 50, utcOffset := 0 }) =
      some [sampleRelease] ∧
    (50 : Int) < 100 ∧
    some [sampleRelease] ≠ some ([] : List Json) := by
  exact ⟨rfl, by norm_num, by simp⟩

/-- Claim C2, amended: against a server holding total items at pageSize
per page that reports lastPage as the ceiling max 1 (total over pageSize)
on every response, LiferayClient.fetch_items sends exactly
max 2 (ceiling of total over pageSize) page requests, for the consecutive
pages 1, 2 and so on, and yields one raw page fewer than it requests.  In
particular the request count is the claimed ceiling only when that
ceiling is at least 2. -/
theorem c2_request_count (total pageSize : Nat) (body : Nat → String)
    (from_date : Datetime) (site_id : String) (hP : 0 < pageSize) :
    ∃ ys reqs,
      LiferayClient.fetch_items (honestLiferayServer total pageSize body)
          from_date pageSize site_id (lastPageFor total pageSize) = some (ys, reqs) ∧
      reqs.length = max 2 ((total + pageSize - 1) / pageSize) ∧
      reqs.map PostsQueryArgs.page = List.range' 1 (max 2 ((total + pageSize - 1) / pageSize)) ∧
      ys.length = max 2 ((total + pageSize - 1) / pageSize) - 1 := by
  have hL : ∀ q, ((honestLiferayServer total pageSize body) q).entries.lastPage =
      lastPageFor total pageSize := fun _ => rfl
  have h0 : 0 < lastPageFor total pageSize := le_max_left 1 _
  have hc := LiferayClient.fetch_items_const (honestLiferayServer total pageSize body)
      (lastPageFor total pageSize) hL from_date pageSize site_id
      (lastPageFor total pageSize) h0 (by omega)
  have key : max 2 (lastPageFor total pageSize) = max 2 ((total + pageSize - 1) / pageSize) := by
    unfold lastPageFor
    generalize (total + pageSize - 1) / pageSize = c
    omega
  refine ⟨_, _, hc, ?_, ?_, ?_⟩
  · rw [List.length_map, List.length_range', key]
  · rw [List.map_map]
    have hid : PostsQueryArgs.page ∘ LiferayClient.queryFor from_date pageSize site_id = id := rfl
    rw [hid, List.map_id, key]
  · rw [List.length_map, List.length_range', key]

/-- Claim C2 witness: the amended claim evaluated at one item and page
size twenty, where the code sends two requests although the ceiling is
one. -/
theorem c2_request_count_witness :
    0 < 20 ∧
    ∃ ys reqs,
      LiferayClient.fetch_items (honestLiferayServer 1 20 (fun p => toString p))
          DEFAULT_DATETIME 20 "site" (lastPageFor 1 20) = some (ys, reqs) ∧
      reqs.length = max 2 ((1 + 20 - 1) / 20) ∧
      reqs.map PostsQueryArgs.page = List.range' 1 (max 2 ((1 + 20 - 1) / 20)) ∧
      ys.length = max 2 ((1 + 20 - 1) / 20) - 1 :=
  ⟨by norm_num,
   c2_request_count 1 20 (fun p => toString p) DEFAULT_DATETIME "site" (by norm_num)⟩

/-- Claim C2 counterexample to the claim as stated: one total item at
page size twenty needs ceiling one page, yet the code requests pages 1
and 2, so the request count is 2 and a page past the last page is
requested. -/
theorem c2_counterexample :
    (LiferayClient.fetch_items (honestLiferayServer 1 20 (fun p => toString p))
        DEFAULT_DATETIME 20 "site" 1).map (fun pr => pr.2.map PostsQueryArgs.page) =
      some [1, 2] ∧
    ((1 + 20 - 1) / 20 : Nat) = 1 ∧
    (LiferayClient.fetch_items (honestLiferayServer 1 20 (fun p => toString p))
        DEFAULT_DATETIME 20 "site" 1).map (fun pr => pr.2.length) = some 2 ∧
    (2 : Nat) ≠ 1 := by
  exact ⟨rfl, rfl, rfl, by norm_num⟩

/-- Claim C3, amended: on a first page reporting zero total items,
LiferayClient.fetch_items raises no error and terminates, but it does not
yield zero pages and does not stop immediately: it yields exactly one raw
page (the empty first page) and sends one further request, for page 2,
before stopping. -/
theorem c3_empty_first_page (pageSize : Nat) (body : Nat → String)
    (from_date : Datetime) (site_id : String) (hP : 0 < pageSize) :
    LiferayClient.fetch_items (honestLiferayServer 0 pageSize body) from_date pageSize site_id 1 =
      some ([body 1],
            [LiferayClient.queryFor from_date pageSize site_id 1,
             LiferayClient.queryFor from_date pageSize site_id 2]) ∧
    (honestLiferayServer 0 pageSize body
        (LiferayClient.queryFor from_date pageSize site_id 1)).entries.totalCount = 0 := by
  have hL : ∀ q, ((honestLiferayServer 0 pageSize body) q).entries.lastPage = 1 := by
    intro q
    show lastPageFor 0 pageSize = 1
    unfold lastPageFor
    rw [Nat.div_eq_of_lt (by omega)]
    rfl
  have hc := LiferayClient.fetch_items_const (honestLiferayServer 0 pageSize body)
      1 hL from_date pageSize site_id 1 one_pos (by omega)
  rw [hc]
  refine ⟨?_, rfl⟩
  norm_num [List.range']
  rfl

/-- Claim C3 witness: the amended claim evaluated at page size twenty. -/
theorem c3_empty_first_page_witness :
    0 < 20 ∧
    (LiferayClient.fetch_items (honestLiferayServer 0 20 (fun p => toString p))
        DEFAULT_DATETIME 20 "site" 1 =
      some ([toString 1],
            [LiferayClient.queryFor DEFAULT_DATETIME 20 "site" 1,
             LiferayClient.queryFor DEFAULT_DATETIME 20 "site" 2]) ∧
     (honestLiferayServer 0 20 (fun p => toString p)
        (LiferayClient.queryFor DEFAULT_DATETIME 20 "site" 1)).entries.totalCount = 0) :=
  ⟨by norm_num,
   c3_empty_first_page 20 (fun p => toString p) DEFAULT_DATETIME "site" (by norm_num)⟩

/-- Claim C3 counterexample to the claim as stated: with zero total items
the code yields one raw page, not zero. -/
theorem c3_counterexample :
    (LiferayClient.fetch_items (honestLiferayServer 0 20 (fun p => toString p))
        DEFAULT_DATETIME 20 "site" 1).map (fun pr => pr.1.length) = some 1 ∧
    (1 : Nat) ≠ 0 := by
  exact ⟨rfl, by norm_num⟩

/-- Claim C4: the claim states that every fetched page, the page numbered
lastPage included, appears exactly once in the yielded sequence.  The
code refutes the last conjunct: with 21 items at page size 20 the server
reports lastPage 2, the code requests pages 1 and 2, yet yields only the
raw text of page 1; the text of page 2, which holds one item, is fetched
and dropped. -/
theorem c4_last_page_fetched_not_yielded :
    LiferayClient.fetch_items (honestLiferayServer 21 20 (fun p => toString p))
        DEFAULT_DATETIME 20 "site" 2 =
      some (["1"],
            [LiferayClient.queryFor DEFAULT_DATETIME 20 "site" 1,
             LiferayClient.queryFor DEFAULT_DATETIME 20 "site" 2]) ∧
    lastPageFor 21 20 = 2 ∧
    ((honestLiferayServer 21 20 (fun p => toString p))
        (LiferayClient.queryFor DEFAULT_DATETIME 20 "site" 2)).text = "2" ∧
    pageItemCount 21 20 2 = 1 ∧
    "2" ∉ (["1"] : List String) := by
  exact ⟨rfl, rfl, rfl, rfl, by decide⟩

/-- Claim C6 counterexample to the claim as stated: the Liferay query
requests descending dateCreated order, not ascending, and the
GitHubRelease payload sorts by the updated field while
metadata_updated_on reads created_at, a different field. -/
theorem c6_counterexample :
    (LiferayClient.queryFor DEFAULT_DATETIME 20 "site" 1).sort = "dateCreated:desc" ∧
    "dateCreated:desc" ≠ "dateCreated:asc" ∧
    "dateCreated:desc" ≠ "dateModified:asc" ∧
    (GitHubReleaseClient.get_releases_payload 100 (some DEFAULT_DATETIME)).sort = "updated" ∧
    GitHubRelease.metadata_updated_on (fun _ => 0)
        (Json.obj [("updated", Json.str "2020-01-01")]) = none ∧
    GitHubRelease.metadata_updated_on (fun _ => 0)
        (Json.obj [("created_at", Json.str "2020-01-01")]) = some 0 ∧
    "updated" ≠ "created_at" := by
  exact ⟨rfl, by decide, by decide, rfl, rfl, rfl, by decide⟩

/-- Claim C6, amended: the Liferay query requests descending dateCreated
order (the literal dateCreated:desc), while Liferay.metadata_updated_on
reads dateModified; the GitHubRelease payload requests ascending order by
the updated field, while GitHubRelease.metadata_updated_on reads
created_at. -/
theorem c6_actual_request_order :
    (∀ (fd : Datetime) (mi : Nat) (sid : String) (p : Nat),
        (LiferayClient.queryFor fd mi sid p).sort = "dateCreated:desc") ∧
    (∀ (m : Nat) (fdo : Option Datetime),
        (GitHubReleaseClient.get_releases_payload m fdo).direction = "asc" ∧
        (GitHubReleaseClient.get_releases_payload m fdo).sort = "updated") ∧
    (∀ (f : String → Int) (s : String),
        GitHubRelease.metadata_updated_on f (Json.obj [("created_at", Json.str s)]) = some (f s)) ∧
    (∀ (f : String → Int) (s : String),
        Liferay.metadata_updated_on f (Json.obj [("dateModified", Json.str s)]) = some (f s)) := by
  exact ⟨fun _ _ _ _ => rfl, fun _ _ => ⟨rfl, rfl⟩, fun _ _ => rfl, fun _ _ => rfl⟩

/-- Claim C7: when from_date or to_date is unset, GitHubRelease.fetch
substitutes DEFAULT_DATETIME and DEFAULT_LAST_DATETIME respectively, and
Liferay.fetch substitutes DEFAULT_DATETIME for an unset from_date; the
bounds actually used are normalized to UTC (offset zero) in every
case. -/
theorem c7_date_defaults_and_utc :
    GitHubRelease.fetch_window none none =
      (datetime_to_utc DEFAULT_DATETIME, datetime_to_utc DEFAULT_LAST_DATETIME) ∧
    (∀ t, (GitHubRelease.fetch_window none t).1 = datetime_to_utc DEFAULT_DATETIME) ∧
    (∀ f, (GitHubRelease.fetch_window f none).2 = datetime_to_utc DEFAULT_LAST_DATETIME) ∧
    (∀ f t, (GitHubRelease.fetch_window f t).1.utcOffset = 0 ∧
            (GitHubRelease.fetch_window f t).2.utcOffset = 0) ∧
    Liferay.from_date_used none = datetime_to_utc DEFAULT_DATETIME ∧
    (∀ f, (Liferay.from_date_used f).utcOffset = 0) := by
  exact ⟨rfl, fun _ => rfl, fun _ => rfl, fun _ _ => ⟨rfl, rfl⟩, rfl, fun _ => rfl⟩

/-- Claim C8: the lower bound is embedded server side: the GitHubRelease
payload carries from_date.isoformat in its since field, every query a
Liferay fetch sends carries from_date.isoformat in its dateCreated
filter, and neither backend re-checks items client side against
from_date: the yielded items are exactly the concatenation of the page
parses, unconditionally. -/
theorem c8_from_date_server_side :
    (∀ (m : Nat) (fd : Datetime),
        (GitHubReleaseClient.get_releases_payload m (some fd)).since =
          some (Datetime.isoformat fd)) ∧
    (∀ (server : PostsQueryArgs → LiferayResponse) (fd : Datetime) (mi : Nat) (sid : String)
        (fuel : Nat) (ys : List String) (reqs : List PostsQueryArgs),
        LiferayClient.fetch_items server fd mi sid fuel = some (ys, reqs) →
        ∀ q ∈ reqs, q.filter = "dateCreated gt " ++ Datetime.isoformat fd) ∧
    (∀ (loads : String → Json) (get_releases : Datetime → List String) (fd td : Datetime),
        GitHubRelease.fetch_items loads get_releases fd td =
          ((get_releases fd).mapM (GitHubRelease.parse_releases loads)).map List.flatten) ∧
    (∀ (loads : String → Json) (pages : List String),
        Liferay.fetch_items_pages loads pages =
          (pages.mapM (Liferay.parse_questions loads)).map List.flatten) := by
  refine ⟨fun _ _ => rfl, ?_,
    fun loads gr fd td => github_pages_eq_mapM loads (gr fd), liferay_pages_eq_mapM⟩
  intro server fd mi sid fuel ys reqs h q hq
  rw [LiferayClient.fetch_items] at h
  cases hloop : LiferayClient.fetchItemsLoop server (LiferayClient.queryFor fd mi sid) fuel 1
      (server (LiferayClient.queryFor fd mi sid 1)).text with
  | none => rw [hloop] at h; exact absurd h (by simp)
  | some pr =>
    rw [hloop] at h
    simp only [Option.some.injEq, Prod.mk.injEq] at h
    obtain ⟨h1, h2⟩ := h
    subst h2
    rcases List.mem_cons.mp hq with rfl | hq2
    · rfl
    · obtain ⟨p, hqe⟩ := LiferayClient.fetchItemsLoop_requests server
        (LiferayClient.queryFor fd mi sid) fuel 1
        (server (LiferayClient.queryFor fd mi sid 1)).text pr.1 pr.2 (by rw [hloop]) q hq2
      subst hqe
      rfl

/-- Claim C8 witness: an evaluation of the Liferay conjunct on the honest
empty server, discharging the implication at a concrete fetch. -/
theorem c8_from_date_server_side_witness :
    (LiferayClient.queryFor DEFAULT_DATETIME 20 "site" 1).filter =
      "dateCreated gt " ++ Datetime.isoformat DEFAULT_DATETIME :=
  c8_from_date_server_side.2.1 (honestLiferayServer 0 20 (fun p => toString p))
    DEFAULT_DATETIME 20 "site" 1 [toString 1]
    [LiferayClient.queryFor DEFAULT_DATETIME 20 "site" 1,
     LiferayClient.queryFor DEFAULT_DATETIME 20 "site" 2]
    rfl (LiferayClient.queryFor DEFAULT_DATETIME 20 "site" 1) (by simp)

/-- Claim C9: a LiferayClient constructed in replay mode (from_archive
true) makes no token request and installs no Authorization header, while
a live construction (from_archive false) makes exactly one token request
at construction. -/
theorem c9_replay_skips_token_request :
    (∀ (tokenServer : TokenRequestData → Json) (url : String)
        (cid sid rt : Option String),
        LiferayClient.init tokenServer url cid sid rt true = ([], none)) ∧
    (∀ (tokenServer : TokenRequestData → Json) (url : String)
        (cid sid rt : Option String),
        (LiferayClient.init tokenServer url cid sid rt false).1.length = 1) := by
  refine ⟨fun _ _ _ _ _ => rfl, fun ts url cid sid rt => ?_⟩
  show (LiferayClient.extract_access_token ts url cid sid rt).1.length = 1
  rw [LiferayClient.extract_access_token]
  split <;> rfl

/-- Claim C10: for every finite sequence of raw pages, the backend
fetch_items loops yield exactly the in-order concatenation of the page
parses: GitHubRelease.fetch_items agrees with mapping parse_releases over
the pages, and Liferay.fetch_items agrees with mapping parse_questions
over the pages. -/
theorem c10_fetch_items_concatenates_parses :
    (∀ (loads : String → Json) (pages : List String),
        GitHubRelease.fetch_items_pages loads pages =
          (pages.mapM (GitHubRelease.parse_releases loads)).map List.flatten) ∧
    (∀ (loads : String → Json) (pages : List String),
        Liferay.fetch_items_pages loads pages =
          (pages.mapM (Liferay.parse_questions loads)).map List.flatten) :=
  ⟨github_pages_eq_mapM, liferay_pages_eq_mapM⟩
